import Mathlib

/-
Verification of the per-brand reconciliation engine of `bots.py`.

The Python source manipulates pandas DataFrames.  The shallow embedding
below models a DataFrame as a list of records (one structure per brand,
one field per column, `Option String` for nullable cells), and each
pandas primitive used by the source is translated into an executable
Lean function:

  * `str.split('/')`                  -> `pySplit` (via `splitChar`)
  * `.str[k]` on a split result       -> `segAt`
  * `re.sub('\\s+', ' ', s)`          -> `collapseWs`
  * `str.strip()`                     -> `pyStrip`
  * `Series.combine_first`            -> `combine_first`
  * `DataFrame.merge(..., how='left')`-> a per-row flatMap over the
                                         matching reference rows (pandas
                                         fan-out semantics kept)
  * `drop_duplicates(subset=key)`     -> `dedupBy` (keeps first occurrence)
  * `astype(str)` on a nullable cell  -> `pyStr` (`NaN` prints as "nan")
  * a Python dict literal             -> an association list, looked up
                                         with last-occurrence-wins
                                         semantics (`pyDictLookup`)

Python `isalpha` / `isdigit` / `isnumeric` are modelled by the ASCII
classifiers `Char.isAlpha` / `Char.isDigit`; every input appearing in the
claims is ASCII.
-/

namespace Bots

/-! ## Generic string helpers (models of the pandas string primitives) -/

/-- Model of Python `s.split('/')` on the character list: every occurrence
of the separator starts a new group, and the result is never empty. -/
def splitChar : List Char → List (List Char)
  | [] => [[]]
  | c :: cs =>
    match splitChar cs with
    | [] => [[c]]
    | g :: gs => if c = '/' then [] :: g :: gs else (c :: g) :: gs

/-- Model of Python `itemname.split('/')` returning strings. -/
def pySplit (s : String) : List String :=
  (splitChar s.data).map List.asString

/-- Model of `.str.split('/').str[0]`: the text before the first slash,
or the whole string when there is no slash. -/
def pySplitFirst (s : String) : String :=
  (pySplit s).headD ""

/-- Model of `.str.split('/').str[i]`: positional segment access, `none`
(pandas `NaN`) when the segment does not exist. -/
def segAt (s : String) (i : Nat) : Option String :=
  (pySplit s).get? i

/-- Model of `re.sub('\\s+', ' ', l)`: every maximal run of whitespace is
replaced by a single space.  The boolean remembers whether the previous
character was whitespace (i.e. whether we are inside a run). -/
def collapseWsAux (prevWs : Bool) : List Char → List Char
  | [] => []
  | c :: cs =>
    if c.isWhitespace then
      if prevWs then collapseWsAux true cs else ' ' :: collapseWsAux true cs
    else c :: collapseWsAux false cs

/-- Model of `.str.replace('\\s+', ' ', regex=True)` on strings. -/
def collapseWs (s : String) : String :=
  (collapseWsAux false s.data).asString

/-- Model of Python `l.strip()` on the character list. -/
def stripChars (l : List Char) : List Char :=
  ((l.dropWhile Char.isWhitespace).reverse.dropWhile Char.isWhitespace).reverse

/-- Model of Python `s.strip()` / pandas `.str.strip()`. -/
def pyStrip (s : String) : String :=
  (stripChars s.data).asString

/-- Character at index `i` of a string, `none` when out of range (pandas
`.str[i]` on a plain string column). -/
def charAt (s : String) (i : Nat) : Option Char :=
  s.data.get? i

/-- Model of `.str.isalpha()` applied to a possibly-missing character. -/
def optIsAlpha : Option Char → Bool
  | some c => c.isAlpha
  | none => false

/-- Model of `.str.isnumeric()` / `.isdigit()` applied to a
possibly-missing character. -/
def optIsDigit : Option Char → Bool
  | some c => c.isDigit
  | none => false

/-- Model of pandas `Series.combine_first`: the first argument wins
wherever it is non-null, the second fills the nulls. -/
def combine_first (a b : Option String) : Option String :=
  match a with
  | some v => some v
  | none => b

/-- Model of `astype(str)` on one nullable cell: a missing value prints
as the literal string "nan". -/
def pyStr : Option String → String
  | some s => s
  | none => "nan"

/-- Model of `drop_duplicates(subset=key)`: keeps the first occurrence of
every key, in order. -/
def dedupBy (key : α → String) : List α → List α
  | [] => []
  | r :: rs => r :: dedupBy key (rs.filter (fun t => !(key t == key r)))
termination_by l => l.length
decreasing_by
  exact Nat.lt_succ_of_le (List.length_filter_le _ rs)

/-- Model of a lookup in a Python dict built from a literal association
list: a duplicated key is silently overwritten, so the LAST occurrence
wins. -/
def pyDictLookup (l : List (String × String)) (k : String) : Option String :=
  (l.reverse.find? (fun p => p.1 == k)).map (fun p => p.2)

/-! ## ADOLFO cleaning routine (`DataCleaner.clean_adolfo_data`)

The BIRKEN routine (`clean_birken_data`) is line-for-line the same
pattern with a different attribute set; the validity condition below is
shared verbatim by both. -/

/-- One row of the dirty upload, restricted to the columns the ADOLFO
routine touches. -/
structure ARow where
  itemCode : String
  itemName : String
  u_categoria : Option String
  u_genero : Option String
  u_familia : Option String
  u_estilo : Option String
  u_descrip_color : Option String
deriving DecidableEq

/-- One row of the ADOLFO reference dictionary. -/
structure ADict where
  itemCode : String
  u_categoria : Option String
  u_genero : Option String
  u_familia : Option String
  u_estilo : Option String
  u_descrip_color : Option String
deriving DecidableEq

/-- Model of the right-hand side of the source expression
`len >= 2 & isalpha & isnumeric`.  Python gives `&` higher precedence
than `>=`, so the source computes `2 & isalpha & isnumeric` first, a
bitwise AND of the integer 2 with 0/1 booleans. -/
def py_amp_chain (b1 b2 : Bool) : Nat :=
  Nat.land (Nat.land 2 (if b1 then 1 else 0)) (if b2 then 1 else 0)

/-- Model of `formato_correcto` in `clean_adolfo_data` (and verbatim in
`clean_birken_data`), exactly as the source parses:
`u_estilo.str.len() >= (2 & u_estilo.str[0].str.isalpha() & u_estilo.str[1].str.isnumeric())`. -/
def formato_correcto (u_estilo : String) : Bool :=
  decide (u_estilo.length ≥ py_amp_chain (optIsAlpha (charAt u_estilo 0)) (optIsDigit (charAt u_estilo 1)))

/-- Model of `tiene_slash = df_null['ItemName'].str.contains('/')`. -/
def tiene_slash (s : String) : Bool :=
  s.data.any (fun c => c == '/')

/-- Model of `cond_valido = tiene_slash & formato_correcto`, evaluated on
a row whose `u_estilo` column has already been assigned. -/
def cond_valido (r : ARow) : Bool :=
  tiene_slash r.itemName && formato_correcto (r.u_estilo.getD "")

/-- Model of `df_null['u_estilo'] = df_null['ItemName'].str.split('/').str[0]`. -/
def adolfo_rows1 (rows : List ARow) : List ARow :=
  rows.map (fun r => { r with u_estilo := some (pySplitFirst r.itemName) })

/-- Model of `df_valido`: the rows satisfying `cond_valido`, with
`u_descrip_color` overwritten by segment 3 of the item name. -/
def adolfo_valid (rows : List ARow) : List ARow :=
  ((adolfo_rows1 rows).filter cond_valido).map
    (fun r => { r with u_descrip_color := segAt r.itemName 3 })

/-- Model of `df_invalido`: the complementary rows, with `u_estilo`
cleared to null. -/
def adolfo_invalid (rows : List ARow) : List ARow :=
  ((adolfo_rows1 rows).filter (fun r => !cond_valido r)).map
    (fun r => { r with u_estilo := none })

/-- Model of the valid-side left merge on `ItemCode` followed by the fill
loop over `['u_categoria', 'u_genero', 'u_familia']`.  The source fills
with `df_valido[col + '_ad'].combine_first(df_valido[col])`: the
DICTIONARY value is the first argument, so it wins over the record value.
A row with no dictionary match keeps its values (all `_ad` cells null);
with several matching dictionary rows the pandas left merge fans the row
out, one output row per match. -/
def adMergeFillValid (dict : List ADict) (r : ARow) : List ARow :=
  match dict.filter (fun d => d.itemCode == r.itemCode) with
  | [] => [r]
  | ms => ms.map (fun m =>
      { r with
        u_categoria := combine_first m.u_categoria r.u_categoria,
        u_genero := combine_first m.u_genero r.u_genero,
        u_familia := combine_first m.u_familia r.u_familia })

/-- Model of the invalid-side left merge on `ItemCode` followed by the
fill loop over all five attribute columns, same `combine_first`
direction as the valid side. -/
def adMergeFillInvalid (dict : List ADict) (r : ARow) : List ARow :=
  match dict.filter (fun d => d.itemCode == r.itemCode) with
  | [] => [r]
  | ms => ms.map (fun m =>
      { r with
        u_categoria := combine_first m.u_categoria r.u_categoria,
        u_genero := combine_first m.u_genero r.u_genero,
        u_familia := combine_first m.u_familia r.u_familia,
        u_estilo := combine_first m.u_estilo r.u_estilo,
        u_descrip_color := combine_first m.u_descrip_color r.u_descrip_color })

/-- Model of `DataCleaner.clean_adolfo_data`.  The boolean component
records whether the configuration-error condition was reported
(`st.error` followed by returning the input unmodified when the
reference dictionary is empty). -/
def clean_adolfo_data (dict : List ADict) (rows : List ARow) : List ARow × Bool :=
  if dict.isEmpty then (rows, true)
  else
    ((adolfo_valid rows).flatMap (adMergeFillValid dict)
      ++ (adolfo_invalid rows).flatMap (adMergeFillInvalid dict), false)

/-! ## PB style-code validator (`validar_y_extraer_u_estilo`) -/

/-- Model of the inner PB helper `validar_y_extraer_u_estilo`: returns
`(u_estilo, first char, second char, es_valido)`.  A missing item name
makes `itemname.split` raise, caught by the bare `except` which returns
all-null and `False`. -/
def validar_y_extraer_u_estilo (itemname : Option String) :
    Option String × Option Char × Option Char × Bool :=
  match itemname with
  | none => (none, none, none, false)
  | some s =>
    let u := pySplitFirst s
    if u.length ≥ 2 then
      (some u, charAt u 0, charAt u 1, optIsAlpha (charAt u 0) && optIsDigit (charAt u 1))
    else
      (some u, none, none, false)


/-! ## NEW ERA cleaning routine (`DataCleaner.clean_new_era_data`) -/

/-- One row of the dirty upload, restricted to the columns the NEW ERA
routine keeps (`columnas_completar` + `columnas_extra`). -/
structure NERecord where
  itemCode : String
  empresa : String
  itemName : String
  uEstilo : Option String
  uSilueta : Option String
  uTeam : Option String
  uDescripColor : Option String
  uSegmento : Option String
  uLiga : Option String
  uColeccionNE : Option String
  uGenero : Option String
  uDescripcion : Option String
  uTemporalidad : Option String
  uTalla : Option String
deriving DecidableEq

/-- One row of the combined NEW ERA reference dictionary, keyed by
`U_Estilo` (converted to `str` by the source, hence non-null here). -/
structure NERef where
  uEstilo : String
  uSilueta : Option String
  uTeam : Option String
  uDescripColor : Option String
  uSegmento : Option String
  uLiga : Option String
  uColeccionNE : Option String
  uGenero : Option String
  uDescripcion : Option String
  uTemporalidad : Option String
deriving DecidableEq

/-- Model of the `U_Descripcion` extraction: collapse whitespace runs,
strip, split on slash, take segment 1, strip the result. -/
def neDescripcion (itemName : String) : Option String :=
  (segAt (pyStrip (collapseWs itemName)) 1).map pyStrip

/-- Model of the component extraction at the top of
`clean_new_era_data`: `U_Estilo` from segment 0, `U_Descripcion` via
`neDescripcion`, `U_Talla` from segment 2. -/
def parseNE (r : NERecord) : NERecord :=
  { r with
    uEstilo := some (pySplitFirst r.itemName),
    uDescripcion := neDescripcion r.itemName,
    uTalla := segAt r.itemName 2 }

/-- Model of the left merge of the upload with the reference on
`U_Estilo` (both sides passed through `astype(str)`): pandas fan-out
semantics, one pair per matching reference row, a single `none`-pair
when there is no match. -/
def neMergeRow (refs : List NERef) (r : NERecord) :
    List (NERecord × Option NERef) :=
  match refs.filter (fun m => m.uEstilo == pyStr r.uEstilo) with
  | [] => [(r, none)]
  | ms => ms.map (fun m => (r, some m))

/-- The left merge over a whole upload. -/
def leftMergeNE (rows : List NERecord) (refs : List NERef) :
    List (NERecord × Option NERef) :=
  rows.flatMap (neMergeRow refs)

/-- Model of the null-fill loop over `columnas_completar[1:]`: a record
cell is replaced by the joined reference cell only where the record cell
is null (`mask = df_null[col].isnull()`). -/
def fillNE (r : NERecord) (m : Option NERef) : NERecord :=
  match m with
  | none => r
  | some m =>
    { r with
      uSilueta := combine_first r.uSilueta m.uSilueta,
      uTeam := combine_first r.uTeam m.uTeam,
      uDescripColor := combine_first r.uDescripColor m.uDescripColor,
      uSegmento := combine_first r.uSegmento m.uSegmento,
      uLiga := combine_first r.uLiga m.uLiga,
      uColeccionNE := combine_first r.uColeccionNE m.uColeccionNE,
      uGenero := combine_first r.uGenero m.uGenero,
      uDescripcion := combine_first r.uDescripcion m.uDescripcion,
      uTemporalidad := combine_first r.uTemporalidad m.uTemporalidad }

/-- The `team_licenses` dict literal of `DataCleaner.__init__`, in
source order. -/
def team_licenses : List (String × String) := [
("LOS ANGELES DODGERS", "MLB"),
    ("NEW YORK YANKEES", "MLB"),
    ("PITTSBURGH PIRATES", "MLB"),
    ("SAN FRANCISCO GIANTS", "MLB"),
    ("SEATTLE MARINERS", "MLB"),
    ("TAMPA BAY RAYS", "MLB"),
    ("NEW ERA BRANDED", "NEW ERA BRANDED"),
    ("NO APLICA", "NO APLICA"),
    ("NEW ENGLAND PATRIOTS", "NFL"),
    ("HOUSTON TEXANS", "NFL"),
    ("BALTIMORE RAVENS", "NFL"),
    ("TORONTO BLUE JAYS", "MLB"),
    ("HOUSTON ASTROS", "MLB"),
    ("GREEN BAY PACKERS", "NFL"),
    ("BOSTON RED SOX", "MLB"),
    ("BALTIMORE ORIOLES", "MLB"),
    ("ST. LOUIS CARDINALS", "MLB"),
    ("SEATTLE SEAHAWKS", "NFL"),
    ("DALLAS COWBOYS", "NFL"),
    ("PITTSBURGH STEELERS", "NFL"),
    ("MIAMI DOLPHINS", "NFL"),
    ("STARWARS", "ENTERTAINMENT"),
    ("DALLAS MAVERICKS", "NBA"),
    ("LOS ANGELES LAKERS", "NBA"),
    ("NEW ORLEANS SAINTS", "NFL"),
    ("JACKSONVILLE JAGUARS", "NFL"),
    ("CLEVELAND BROWNS", "NFL"),
    ("NEW YORK KNICKS", "NBA"),
    ("SAN ANTONIO SPURS", "NBA"),
    ("WASHINGTON NATIONALS", "MLB"),
    ("OAKLAND ATHLETICS", "MLB"),
    ("DETROIT TIGERS", "MLB"),
    ("ANAHEIM ANGELS", "MLB"),
    ("NASCAR", "MOTORSPORT"),
    ("NEW YORK METS", "MLB"),
    ("PHILADELPHIA PHILLIES", "MLB"),
    ("CHICAGO WHITE SOX", "MLB"),
    ("SAN DIEGO PADRES", "MLB"),
    ("CLEVELAND INDIANS", "MLB"),
    ("DENVER BRONCOS", "NFL"),
    ("BUFFALO BILLS", "NFL"),
    ("ATLANTA FALCONS", "NFL"),
    ("CHICAGO BEARS", "NFL"),
    ("BROOKLYN NETS", "NBA"),
    ("CHICAGO BULLS", "NBA"),
    ("SAN FRANCISCO 49ERS", "NFL"),
    ("INDIANAPOLIS COLTS", "NFL"),
    ("ARIZONA CARDINALS", "NFL"),
    ("OAKLAND RAIDERS", "NFL"),
    ("LOS ANGELES RAMS", "NFL"),
    ("TAMPA BAY BUCCANEERS", "NFL"),
    ("GOLDEN STATE WARRIORS", "NBA"),
    ("BOSTON CELTICS", "NBA"),
    ("CHICAGO CUBS", "MLB"),
    ("TWEETY PIE", "ENTERTAINMENT"),
    ("TOY STORY", "ENTERTAINMENT"),
    ("ATLANTA BRAVES", "MLB"),
    ("SPIDERMAN", "ENTERTAINMENT"),
    ("DEADPOOL", "ENTERTAINMENT"),
    ("PHILADELPHIA EAGLES", "NFL"),
    ("DETROIT LIONS", "NFL"),
    ("MILWAUKEE BUCKS", "NBA"),
    ("MIAMI HEAT", "NBA"),
    ("FLORIDA MARLINS", "MLB"),
    ("MCLAREN RACING", "MOTORSPORT"),
    ("MICKEY MOUSE", "ENTERTAINMENT"),
    ("WASHINGTON REDSKINS", "NFL"),
    ("LAS VEGAS RAIDERS", "NFL"),
    ("NEW YORK GIANTS", "NFL"),
    ("CINCINNATI REDS", "MLB"),
    ("HULK", "ENTERTAINMENT"),
    ("KANSAS CITY CHIEFS", "NFL"),
    ("NEW ORLEANS PELICANS", "NBA"),
    ("DENVER NUGGETS", "NBA"),
    ("MINNESOTA VIKINGS", "NFL"),
    ("MIAMI MARLINS", "MLB"),
    ("TENNESSEE TITANS", "NFL"),
    ("UNKNOWN", "MLB"),
    ("CAPTAIN AMERICA", "ENTERTAINMENT"),
    ("PHOENIX SUNS", "NBA"),
    ("MLB GENERIC LOGO", "MLB"),
    ("BROOKLYN DODGERS", "MLB"),
    ("SYLVESTER", "ENTERTAINMENT"),
    ("ORLANDO MAGIC", "NBA"),
    ("ARIZONA DIAMONDBACKS", "MLB"),
    ("TEXAS RANGERS", "MLB"),
    ("LOONEY TUNES", "ENTERTAINMENT"),
    ("INDUSTRIA INC", "ENTERTAINMENT"),
    ("FORMULA E", "MOTORSPORT"),
    ("CLUB DEPORTIVO OLIMPIA", "HONDURAS SOCCER"),
    ("CAROLINA PANTHERS", "NFL"),
    ("MINNESOTA TWINS", "MLB"),
    ("JUSTICE LEAGUE", "ENTERTAINMENT"),
    ("COLORADO ROCKIES", "MLB"),
    ("TORONTO RAPTORS", "NBA"),
    ("ANIMANIACS", "ENTERTAINMENT"),
    ("MONSTERS INC", "ENTERTAINMENT"),
    ("HOUSTON OILERS", "NFL"),
    ("SUPERMAN", "ENTERTAINMENT"),
    ("BATMAN", "ENTERTAINMENT"),
    ("KANSAS CITY ROYALS", "MLB"),
    ("LOS ANGELES CLIPPERS", "NBA"),
    ("MINNIE MOUSE", "ENTERTAINMENT"),
    ("CLUB SOCIAL DEPORTIVO MUNICIPAL", "GUATEMALA SOCCER LEAGUE"),
    ("EMF", "ENTERTAINMENT"),
    ("UTAH JAZZ", "NBA"),
    ("NEW YORK JETS", "NFL"),
    ("HOUSTON ROCKETS", "NBA"),
    ("LED ZEPPELIN", "ENTERTAINMENT"),
    ("GUATEMALA", "MARCA PAIS"),
    ("NONE", "NEW ERA BRANDED"),
    ("LEHIGH VALLEY IRON PIGS", "MILB"),
    ("FRESNO GRIZZLIES", "MILB"),
    ("NFL GENERIC LOGO", "NFL"),
    ("PLUTO", "ENTERTAINMENT"),
    ("MONTREAL EXPOS", "MLB"),
    ("MILWAUKEE BREWERS", "MLB"),
    ("GENERIC DISNEY", "ENTERTAINMENT"),
    ("BUGS BUNNY", "ENTERTAINMENT"),
    ("MEMPHIS CHICKS", "MILB"),
    ("PIGLET", "ENTERTAINMENT"),
    ("LOS ANGELES CHARGERS", "NFL"),
    ("GOOFY", "ENTERTAINMENT"),
    ("TOM & JERRY", "ENTERTAINMENT"),
    ("HARTFORD YARD GOATS", "MILB"),
    ("PHILADELPHIA 76ERS", "NBA"),
    ("CINCINNATI BENGALS", "NFL"),
    ("ATLANTA HAWKS", "NBA"),
    ("FEAR OF GOD", "FEAR OF GOD"),
    ("NBA LOGO", "NBA"),
    ("LA CASA DE PAPEL", "ENTERTAINMENT"),
    ("NFL OFFICIAL LOGO", "NFL"),
    ("TELLAECHE", "TELLAECHE"),
    ("COMUNICACIONES FC", "GUATEMALA SOCCER LEAGUE"),
    ("LOS ANGELES ANGELS", "MLB"),
    ("PANAMA", "MARCA PAIS"),
    ("TEAM GLISTEN", "ENTERTAINMENT"),
    ("TIGGER", "ENTERTAINMENT"),
    ("PUERTO RICO", "FEDERACION DE BASEBALL PUERTO RICO"),
    ("EL SALVADOR", "MARCA PAIS"),
    ("GOLDEN STATE WARRIOR", "NBA"),
    ("CHARLOTTE HORNETS", "NBA"),
    ("NFL GENERIC SUPERBOW", "NFL"),
    ("BIZARRAP", "ENTERTAINMENT"),
    ("NFL ALL OVER", "NFL"),
    ("DOMINICAN REPUBLIC", "FEDERACION DOMINICANA DE BASEBALL"),
    ("KOUMORI", "NEW ERA BRANDED"),
    ("WINNIE THE POOH", "ENTERTAINMENT"),
    ("OKLAHOMA CITY THUNDER", "NBA"),
    ("MINNESOTA TIMBERWOLVES", "NBA"),
    ("MLB PROPERTIES ALL OVER", "MLB"),
    ("NBA ALL OVER", "NBA"),
    ("CLEVELAND CAVALIERS", "NBA"),
    ("WASHINGTON", "NFL"),
    ("DISNEY", "ENTERTAINMENT"),
    ("TAZ", "ENTERTAINMENT"),
    ("DAFFY DUCK", "ENTERTAINMENT"),
    ("MLB ALL OVER", "MLB"),
    ("PORTLAND TRAIL BLAZE", "NBA"),
    ("SCOOBY DOO", "ENTERTAINMENT"),
    ("BROOKLYN CYCLONES", "MILB"),
    ("SACRAMENTO KINGS", "NBA"),
    ("DOMINICAN REPUBLIC C", "BASEBALL FEDERATION"),
    ("TEEN TITAN STAR FIRE", "ENTERTAINMENT"),
    ("COLUMBUS CREW", "MLS"),
    ("SEATTLE SOUNDERS", "MLS"),
    ("MCLAREN F1 RACING", "MOTORSPORT"),
    ("MLB LOGO", "MLB"),
    ("SPACE JAM", "NBA"),
    ("MANCHESTER UNITED FC", "EUROPEAN SOCCER"),
    ("CHELSEA FC", "EUROPEAN SOCCER"),
    ("DUCATI", "MOTORSPORT"),
    ("MERCEDES BENZ", "MOTORSPORT"),
    ("NBA ALL STAR GAME", "NBA"),
    ("RENAULT F1 RACING", "MOTORSPORT"),
    ("NEW YORK RED BULLS", "MLS"),
    ("INTER MIAMI", "MLS"),
    ("NEW YORK CITY FC", "MLS"),
    ("NFL LOGO", "NFL"),
    ("RENAULT F1", "MOTORSPORT"),
    ("TEEN TITAN CYBORG", "ENTERTAINMENT"),
    ("L.A. GALAXY", "MLS"),
    ("TEEN TITAN RAVEN", "ENTERTAINMENT"),
    ("LAKELAND TIGERS", "MILB"),
    ("RED BULL F1", "MOTORSPORT"),
    ("CALIFORNIA ANGELS", "MLB"),
    ("READING FIGHTIN PHILS", "MILB"),
    ("CLEVELAND 2022", "MLB"),
    ("LOS ANGELES FC", "MLS"),
    ("WASHINGTON COMMANDER", "NFL"),
    ("DETROIT PISTONS", "NBA"),
    ("CLEVELAND GUARDIANS", "MLB"),
    ("CHELSEA FC LION CREST", "EUROPEAN SOCCER"),
    ("TEEN TITAN ROBIN", "ENTERTAINMENT"),
    ("WBC MEXICO", "WBC"),
    ("WBC VENEZUELA", "WBC"),
    ("WBC PUERTO RICO", "WBC"),
    ("MLB ALL STAR GAME LOGO", "MLB"),
    ("MLB GENERIC WORLD SERIES", "MLB"),
    ("TUCSON SIDEWINDERS", "MILB"),
    ("WB 100TH LOONEY TUNES MASHUPS", "ENTERTAINMENT"),
    ("MEMPHIS GRIZZLIES", "NBA"),
    ("OKLAHOMA CITY THUNDE", "NBA"),
    ("PORTLAND TRAIL BLAZERS", "NBA"),
    ("HAAS FORMULA 1", "MOTORSPORT"),
    ("RED BULL F1 RACING", "MOTORSPORT"),
    ("WB HARRY POTTER DEAT", "ENTERTAINMENT"),
    ("WB HARRY POTTER DEATHLY HOLLOW PT 2", "ENTERTAINMENT"),
    ("WBC PANAMA", "WBC"),
    ("WILE E COYOTE", "ENTERTAINMENT"),
    ("GRAPEFRUIT LEAGUE LO", "MLB"),
    ("LAS VEGAS AVIATORS", "MILB"),
    ("MCLAREN AUTOMOTIVE", "MOTORSPORT"),
    ("BOSTON BRAVES", "MLB"),
    ("PHILADELPHIA PHILLIE", "MLB"),
    ("CLUB DEPORTIVO OLIMP", "HONDURAS SOCCER"),
    ("CANGREJEROS DE SANTU", "PUERTO RICO BASEBALL"),
    ("BEAVIS AND BUTT-HEAD", "ENTERTAINMENT"),
    ("HONDURAS", "MARCA PAIS"),
    ("VISA CASH APP RACING", "MOTORSPORT"),
    ("WILLY WONKA", "ENTERTAINMENT"),
    ("ALPINE RACING", "MOTORSPORT"),
    ("TRUE", "NEW ERA BRANDED"),
    ("BRAND NEW ERA", "NEW ERA BRANDED"),
    ("MANDALORIAN", "ENTERTAINMENT"),
    ("IRONMAN", "ENTERTAINMENT"),
    ("INCREDIBLE HULK", "ENTERTAINMENT"),
    ("NFL OILERS", "NFL"),
    ("WBC DOMINICAN REPUBLIC", "WBC"),
    ("MLB MULTI TEAM", "MLB"),
    ("A NIGHTMARE ON ELM S", "ENTERTAINMENT"),
    ("INTERNATIONAL SPEEDW", "MOTORSPORT"),
    ("SPONGEBOB", "ENTERTAINMENT"),
    ("HEY ARNOLD", "ENTERTAINMENT"),
    ("FRIDAY THE 13TH", "ENTERTAINMENT"),
    ("DONALD DUCK", "ENTERTAINMENT"),
    ("ENTREGAS DESCONOCIDAS", "NO APLICA"),
    ("PATRICK STAR", "ENTERTAINMENT"),
    ("ELMER FUDD", "ENTERTAINMENT"),
    ("DOWN EAST WOOD DUCKS", "ENTERTAINMENT"),
    ("CORPUS CRISTI HOOKS", "MILB"),
    ("ENTREGAS A PERSONAL", "NO APLICA")
]

/-- The `team_licenses_extended` dict literal of `DataCleaner.__init__`,
in source order.  The key "NONE" appears twice; the Python dict keeps
the later value ("NON LICENSED"), which `pyDictLookup` reproduces. -/
def team_licenses_extended : List (String × String) := [
("NO APLICA", "NBA"),
    ("NONE", "NONE LICENSED"),
    ("NEW ERA BRANDED", "MLB"),
    ("PUERTO RICO", "MARCA PAIS"),
    ("NONE", "NON LICENSED"),
    ("WB HARRY POTTER DEATHLY HOLLOW PT 2", "WARNER BROS"),
    ("CANGREJEROS DE SANTU", "LIGA DE BEISBOL PROFESIONAL ROBERTO CLEMENTE"),
    ("BUGS BUNNY", "WARNER BROS"),
    ("WILE E COYOTE", "WARNER BROS"),
    ("BEAVIS AND BUTT-HEAD", "NEW ERA BRANDED"),
    ("OAKLAND ATHLETICS", "MARCA PAIS"),
    ("ELMER FUDD", "WARNER BROS"),
    ("NFL OILERS", "MARCA PAIS"),
    ("CHICAGO BEARS", "MARCA PAIS"),
    ("UNKNOWN", "ENTERTAINMENT")
]

/-- Model of `df_null['U_Liga'].isna() | (df_null['U_Liga'] == '')`. -/
def blankLiga : Option String → Bool
  | none => true
  | some s => s == ""

/-- Model of the team-license validation loop (the secondary
classification resolver): rows whose `U_Liga` is null or empty look the
team up first in `team_licenses`, else in `team_licenses_extended`; a
null team reads as the empty string. -/
def resolveLeague (r : NERecord) : NERecord :=
  if blankLiga r.uLiga then
    match pyDictLookup team_licenses (r.uTeam.getD "") with
    | some v => { r with uLiga := some v }
    | none =>
      match pyDictLookup team_licenses_extended (r.uTeam.getD "") with
      | some v => { r with uLiga := some v }
      | none => r
  else r

/-- Model of `DataCleaner.clean_new_era_data`.  The boolean component
records the configuration-error report (empty reference dictionary:
`st.error` and the input returned unmodified).  The reference is
deduplicated by `U_Estilo` before the merge
(`df_reference.drop_duplicates('U_Estilo')`), so the merge is
one-to-one and the positional null-fill of the source aligns row by
row with the pairs produced by `leftMergeNE`. -/
def clean_new_era_data (refs : List NERef) (rows : List NERecord) :
    List NERecord × Bool :=
  if refs.isEmpty then (rows, true)
  else
    (((leftMergeNE (rows.map parseNE) (dedupBy (fun m => m.uEstilo) refs)).map
        (fun rm => fillNE rm.1 rm.2)).map resolveLeague,
     false)


/-! ## Cascading multi-source merger (`DataCleaner.process_new_era_levels`,
the cascade over the grouped tier extracts, lines 623-658) -/

/-- One row of a grouped tier extract: the `U_Estilo` key plus the shared
attribute columns (`columnas_comunes`), kept positional. -/
structure NRow where
  key : String
  attrs : List (Option String)
deriving DecidableEq

/-- Model of the per-column completion loop
`df_merged[col] = df_merged[col].fillna(df_merged[col + '_temp'])`: the
accumulator value is kept where non-null, the tier value fills the
nulls; columns the tier lacks are kept as they are. -/
def fillAttrs : List (Option String) → List (Option String) → List (Option String)
  | [], _ => []
  | a :: as, [] => a :: as
  | a :: as, b :: bs => combine_first a b :: fillAttrs as bs

/-- Completion of one accumulator row by one matching tier row. -/
def fillRowN (r m : NRow) : NRow :=
  ⟨r.key, fillAttrs r.attrs m.attrs⟩

/-- Model of the left merge of one accumulator row with a tier on the
key (pandas fan-out semantics), with the null-fill applied: one output
row per matching tier row, the row itself when there is no match. -/
def mergeRow (tier : List NRow) (r : NRow) : List NRow :=
  match tier.filter (fun t => t.key == r.key) with
  | [] => [r]
  | ms => ms.map (fun m => fillRowN r m)

/-- Model of one cascade iteration over whole tables: the left merge
with fill, then the append of the tier rows whose key is not yet in the
accumulator. -/
def mergeStep (acc tier : List NRow) : List NRow :=
  acc.flatMap (mergeRow tier)
  ++ tier.filter (fun t => !(acc.any (fun r => r.key == t.key)))

/-- Model of the cascade over the grouped tier dataframes: seed with the
first tier, fold the remaining tiers with `mergeStep`, then
`drop_duplicates(subset='U_Estilo', keep='first')`. -/
def combinar_cascada (tiers : List (List NRow)) : List NRow :=
  match tiers with
  | [] => []
  | t :: ts => dedupBy (fun r => r.key) (ts.foldl mergeStep t)

/-- First row carrying a given key (the authoritative row of a table). -/
def lookupKeyN (l : List NRow) (k : String) : Option NRow :=
  l.find? (fun r => r.key == k)

/-! ## CH cleaning routine (`DataCleaner.clean_ch_data`), derived columns -/

/-- Model of pandas `.str.startswith(c)` with the one-character prefixes
used by the CH routine. -/
def pyStartsWith1 (s : String) (c : Char) : Bool :=
  match s.data with
  | [] => false
  | a :: _ => a == c

/-- Model of the `np.select` assigning `U_Genero` from the first
character of `U_Estilo`: conditions are tried in order, default is the
empty string. -/
def ch_genero (u_estilo : String) : String :=
  if pyStartsWith1 u_estilo 'F' then "MACC"
  else if pyStartsWith1 u_estilo 'W' then "WFW"
  else if pyStartsWith1 u_estilo 'C' then "MFW"
  else if pyStartsWith1 u_estilo 'U' then "WACC"
  else ""

/-- Model of `df_null['U_Categoria'] = df_null['U_Genero']`. -/
def ch_categoria (u_estilo : String) : String :=
  ch_genero u_estilo

/-- Model of the nested `np.where` assigning `U_Segmento` from
`U_Genero`. -/
def ch_segmento (genero : String) : String :=
  if genero == "WFW" || genero == "MFW" then "FOOTWEAR"
  else if genero == "MACC" || genero == "WACC" then "ACCESSORIES"
  else ""

/-! ## Transposed attribute-row export (`convert_to_plantilla_format`) -/

/-- One cleaned record as seen by the export: its code, its company tag
and its attribute cells (an association list standing for the dataframe
columns; a column the dataframe lacks is simply absent from the list). -/
structure PRec where
  itemCode : String
  empresa : String
  attrs : List (String × Option String)
deriving DecidableEq

/-- Cell of a record at a column: `none` when the dataframe lacks the
column, `some none` for a null cell. -/
def attrGet (r : PRec) (c : String) : Option (Option String) :=
  (r.attrs.find? (fun p => p.1 == c)).map (fun p => p.2)

/-- One row of the plantilla output: exactly the five columns `Pais`,
`DB`, `COLUMNA`, `Codigo_SAP`, `VALOR`. -/
structure PlantRow where
  pais : Option String
  db : String
  columna : String
  codigoSap : String
  valor : String
deriving DecidableEq

/-- Model of the emission guard: the column exists, the cell is non-null
(`pd.notna`), and the stripped text is neither empty nor the literal
string "nan". -/
def plantPasses (r : PRec) (c : String) : Bool :=
  match attrGet r c with
  | some (some v) => !(pyStrip v == "") && !(pyStrip v == "nan")
  | _ => false

/-- The plantilla row appended for a passing (record, column) pair. -/
def mkPlantRow (r : PRec) (c : String) (v : String) : PlantRow :=
  ⟨none, r.empresa, c, r.itemCode, pyStrip v⟩

/-- The value a passing pair contributes (stripped cell text). -/
def plantVal (r : PRec) (c : String) : String :=
  match attrGet r c with
  | some (some v) => pyStrip v
  | _ => ""

/-- Canonical form of the row emitted for a (record, column) pair. -/
def plantEmit (r : PRec) (c : String) : PlantRow :=
  ⟨none, r.empresa, c, r.itemCode, plantVal r c⟩

/-- Model of the inner loop body of `convert_to_plantilla_format`: append
one plantilla row when the guard passes, keep the accumulator
otherwise. -/
def plantStep (r : PRec) (acc : List PlantRow) (c : String) : List PlantRow :=
  match attrGet r c with
  | some (some v) =>
    if !(pyStrip v == "") && !(pyStrip v == "nan") then acc ++ [mkPlantRow r c v]
    else acc
  | _ => acc

/-- Model of `convert_to_plantilla_format`: iterate the records, and for
each record iterate the brand column list, appending to
`plantilla_data`. -/
def convert_to_plantilla_format (rows : List PRec) (cols : List String) :
    List PlantRow :=
  rows.foldl (fun acc r => cols.foldl (plantStep r) acc) []


/-! ## Concrete instances used by the checked scenarios -/

/-- ADOLFO dictionary with one row for code X1 carrying a non-null
category. -/
def c1AdolfoDict : List ADict :=
  [{ itemCode := "X1", u_categoria := some "NEW", u_genero := none,
     u_familia := none, u_estilo := none, u_descrip_color := none }]

/-- ADOLFO upload with one row for code X1 whose category is already
populated. -/
def c1AdolfoRows : List ARow :=
  [{ itemCode := "X1", itemName := "A1/B/C/D", u_categoria := some "OLD",
     u_genero := none, u_familia := none, u_estilo := none,
     u_descrip_color := none }]

/-- NEW ERA record with a populated silhouette. -/
def c1NERecordKeep : NERecord :=
  { itemCode := "c", empresa := "e", itemName := "A1/D/T",
    uEstilo := some "A1", uSilueta := some "KEEP", uTeam := none,
    uDescripColor := none, uSegmento := none, uLiga := none,
    uColeccionNE := none, uGenero := none, uDescripcion := none,
    uTemporalidad := none, uTalla := none }

/-- NEW ERA reference row proposing a different silhouette for the same
style. -/
def c1NERefOther : NERef :=
  { uEstilo := "A1", uSilueta := some "OTHER", uTeam := none,
    uDescripColor := none, uSegmento := none, uLiga := none,
    uColeccionNE := none, uGenero := none, uDescripcion := none,
    uTemporalidad := none }

/-- ADOLFO dictionary with a duplicated ItemCode (two rows for X1). -/
def c4FanDict : List ADict :=
  [{ itemCode := "X1", u_categoria := some "A", u_genero := none,
     u_familia := none, u_estilo := none, u_descrip_color := none },
   { itemCode := "X1", u_categoria := some "B", u_genero := none,
     u_familia := none, u_estilo := none, u_descrip_color := none }]

/-- One-row ADOLFO upload matching the duplicated code X1. -/
def c4FanRows : List ARow :=
  [{ itemCode := "X1", itemName := "A1/B/C/D", u_categoria := none,
     u_genero := none, u_familia := none, u_estilo := none,
     u_descrip_color := none }]

/-- ADOLFO dictionary with a unique key, used to instantiate the
partition theorem. -/
def c4WitDict : List ADict :=
  [{ itemCode := "W1", u_categoria := some "CAT", u_genero := none,
     u_familia := none, u_estilo := none, u_descrip_color := none }]

/-- Two-row ADOLFO upload, one valid and one invalid name. -/
def c4WitRows : List ARow :=
  [{ itemCode := "W1", itemName := "A1/B/C/D", u_categoria := none,
     u_genero := none, u_familia := none, u_estilo := none,
     u_descrip_color := none },
   { itemCode := "W2", itemName := "NOSLASH", u_categoria := none,
     u_genero := none, u_familia := none, u_estilo := none,
     u_descrip_color := none }]

/-- ADOLFO dictionary with a duplicated ItemCode Z9 used against an
invalid row. -/
def c7FanDict : List ADict :=
  [{ itemCode := "Z9", u_categoria := some "CAT1", u_genero := none,
     u_familia := none, u_estilo := some "S1", u_descrip_color := some "COL1" },
   { itemCode := "Z9", u_categoria := some "CAT2", u_genero := none,
     u_familia := none, u_estilo := some "S2", u_descrip_color := some "COL2" }]

/-- One-row ADOLFO upload whose name has no slash (invalid side). -/
def c7FanRows : List ARow :=
  [{ itemCode := "Z9", itemName := "NOSLASH", u_categoria := none,
     u_genero := none, u_familia := none, u_estilo := none,
     u_descrip_color := none }]

/-- First cascade tier: key K1 with attribute X. -/
def c5Tier1 : List NRow := [⟨"K1", [some "X"]⟩]

/-- Second cascade tier: same key K1 with attribute Y, plus the new key
K2 with attribute Z. -/
def c5Tier2 : List NRow := [⟨"K1", [some "Y"]⟩, ⟨"K2", [some "Z"]⟩]

/-- NEW ERA record with a populated league (must not be touched by the
resolver). -/
def c6PopulatedRec : NERecord :=
  { itemCode := "c", empresa := "e", itemName := "n", uEstilo := none,
    uSilueta := none, uTeam := some "LOS ANGELES DODGERS",
    uDescripColor := none, uSegmento := none, uLiga := some "KEEP",
    uColeccionNE := none, uGenero := none, uDescripcion := none,
    uTemporalidad := none, uTalla := none }

/-- NEW ERA record with a blank league and the Dodgers team. -/
def c6DodgersRec : NERecord :=
  { itemCode := "c", empresa := "e", itemName := "n", uEstilo := none,
    uSilueta := none, uTeam := some "LOS ANGELES DODGERS",
    uDescripColor := none, uSegmento := none, uLiga := none,
    uColeccionNE := none, uGenero := none, uDescripcion := none,
    uTemporalidad := none, uTalla := none }

/-- Record whose only attribute cell holds the literal text "nan". -/
def c9NanRow : PRec := ⟨"C100", "SBO_X", [("u_categoria", some "nan")]⟩

/-- Record with one genuinely filled attribute cell. -/
def c9WitRow : PRec := ⟨"C200", "SBO_Y", [("u_genero", some " A ")]⟩


/-! ## Generic list lemmas -/

theorem filter_not_length_add (p : α → Bool) (l : List α) :
    (l.filter p).length + (l.filter (fun a => !p a)).length = l.length := by
  have h := (List.filter_append_perm p l).length_eq
  simpa [List.length_append] using h

theorem nodup_filter_key_le_one (key : α → String) (l : List α)
    (h : (l.map key).Nodup) (k : String) :
    (l.filter (fun x => key x == k)).length ≤ 1 := by
  induction l with
  | nil => simp
  | cons a as ih =>
    simp only [List.map_cons, List.nodup_cons] at h
    rw [List.filter_cons]
    by_cases ha : (key a == k) = true
    · have hk : key a = k := by simpa using ha
      have hnil : as.filter (fun x => key x == k) = [] := by
        apply List.filter_eq_nil_iff.mpr
        intro x hx hkx
        exact h.1 (by
          have : key x = key a := by simpa [hk] using hkx
          exact this ▸ List.mem_map_of_mem key hx)
      simp [ha, hnil]
    · simpa [ha] using ih h.2

theorem flatMap_length_one (f : α → List β) (l : List α)
    (h : ∀ a ∈ l, (f a).length = 1) : (l.flatMap f).length = l.length := by
  induction l with
  | nil => simp
  | cons a as ih =>
    rw [List.flatMap_cons, List.length_append, h a (List.mem_cons_self a as),
      ih (fun x hx => h x (List.mem_cons_of_mem a hx))]
    simp [List.length_cons, Nat.add_comm]

theorem map_flatMap_singleton (f : α → List α) (g : α → β) (l : List α)
    (h1 : ∀ a ∈ l, (f a).length = 1) (h2 : ∀ a ∈ l, ∀ x ∈ f a, g x = g a) :
    (l.flatMap f).map g = l.map g := by
  induction l with
  | nil => simp
  | cons a as ih =>
    rw [List.flatMap_cons, List.map_append, List.map_cons]
    obtain ⟨x, hx⟩ := List.length_eq_one.mp (h1 a (List.mem_cons_self a as))
    rw [hx, List.map_singleton, h2 a (List.mem_cons_self a as) x (by simp [hx]),
      ih (fun y hy => h1 y (List.mem_cons_of_mem a hy))
        (fun y hy => h2 y (List.mem_cons_of_mem a hy))]
    rfl

theorem find?_filter_imp (p q : α → Bool) (l : List α)
    (h : ∀ x, p x = true → q x = true) :
    (l.filter q).find? p = l.find? p := by
  induction l with
  | nil => rfl
  | cons a as ih =>
    rw [List.filter_cons]
    by_cases hq : q a = true
    · rw [if_pos hq]
      by_cases hp : p a = true
      · rw [List.find?_cons_of_pos _ hp, List.find?_cons_of_pos _ hp]
      · rw [List.find?_cons_of_neg _ hp, List.find?_cons_of_neg _ hp, ih]
    · have hp : ¬ p a = true := fun hpa => hq (h a hpa)
      rw [if_neg hq, List.find?_cons_of_neg _ hp, ih]

theorem find?_all_pos (p : α → Bool) (l : List α) (h : ∀ x ∈ l, p x = true) :
    l.find? p = l.head? := by
  cases l with
  | nil => rfl
  | cons a as => rw [List.find?_cons_of_pos _ (h a (List.mem_cons_self a as))]; rfl

/-! ## Lemmas about `dedupBy` -/

theorem mem_dedupBy (key : α → String) (l : List α) (x : α)
    (hx : x ∈ dedupBy key l) : x ∈ l := by
  induction l using dedupBy.induct key with
  | case1 => rw [dedupBy] at hx; exact hx
  | case2 r rs ih =>
    rw [dedupBy] at hx
    rcases List.mem_cons.mp hx with h | h
    · exact h ▸ List.mem_cons_self r _
    · exact List.mem_cons_of_mem r (List.mem_of_mem_filter (ih h))

theorem dedupBy_keys_nodup (key : α → String) (l : List α) :
    ((dedupBy key l).map key).Nodup := by
  induction l using dedupBy.induct key with
  | case1 => simp [dedupBy]
  | case2 r rs ih =>
    rw [dedupBy, List.map_cons, List.nodup_cons]
    refine ⟨?_, ih⟩
    intro hmem
    obtain ⟨x, hx, hkey⟩ := List.mem_map.mp hmem
    have hxf := mem_dedupBy _ _ _ hx
    have hq := List.of_mem_filter hxf
    simp [hkey] at hq

theorem find?_dedupBy (key : α → String) (k : String) (l : List α) :
    (dedupBy key l).find? (fun x => key x == k)
      = l.find? (fun x => key x == k) := by
  induction l using dedupBy.induct key with
  | case1 => rw [dedupBy]
  | case2 r rs ih =>
    rw [dedupBy]
    by_cases hr : (key r == k) = true
    · simp only [List.find?_cons, hr]
    · simp only [List.find?_cons, Bool.of_not_eq_true hr]
      rw [ih, find?_filter_imp]
      intro x hx
      have hxk : key x = k := by simpa using hx
      have hrk : ¬ key r = k := by simpa using hr
      simp [hxk]
      exact fun hc => hrk (hc ▸ rfl)


/-! ## Lemmas about the ADOLFO merge-and-fill -/

theorem adMergeFillValid_fields (dict : List ADict) (r : ARow) :
    ∀ x ∈ adMergeFillValid dict r,
      x.itemCode = r.itemCode ∧ x.itemName = r.itemName := by
  intro x hx
  rcases hd : dict.filter (fun d => d.itemCode == r.itemCode) with _ | ⟨m, ms⟩
  · simp only [adMergeFillValid, hd, List.mem_singleton] at hx
    exact ⟨hx ▸ rfl, hx ▸ rfl⟩
  · simp only [adMergeFillValid, hd, List.mem_map] at hx
    obtain ⟨m0, _, hm0⟩ := hx
    exact ⟨hm0 ▸ rfl, hm0 ▸ rfl⟩

theorem adMergeFillInvalid_fields (dict : List ADict) (r : ARow) :
    ∀ x ∈ adMergeFillInvalid dict r,
      x.itemCode = r.itemCode ∧ x.itemName = r.itemName := by
  intro x hx
  rcases hd : dict.filter (fun d => d.itemCode == r.itemCode) with _ | ⟨m, ms⟩
  · simp only [adMergeFillInvalid, hd, List.mem_singleton] at hx
    exact ⟨hx ▸ rfl, hx ▸ rfl⟩
  · simp only [adMergeFillInvalid, hd, List.mem_map] at hx
    obtain ⟨m0, _, hm0⟩ := hx
    exact ⟨hm0 ▸ rfl, hm0 ▸ rfl⟩

theorem adMergeFillValid_length (dict : List ADict) (r : ARow)
    (h : (dict.map (fun d => d.itemCode)).Nodup) :
    (adMergeFillValid dict r).length = 1 := by
  have hle := nodup_filter_key_le_one (fun d => d.itemCode) dict h r.itemCode
  rcases hd : dict.filter (fun d => d.itemCode == r.itemCode) with _ | ⟨m, ms⟩
  · simp [adMergeFillValid, hd]
  · rw [hd] at hle
    simp only [List.length_cons] at hle
    have hms : ms = [] := List.length_eq_zero.mp (by omega)
    simp [adMergeFillValid, hd, hms]

theorem adMergeFillInvalid_length (dict : List ADict) (r : ARow)
    (h : (dict.map (fun d => d.itemCode)).Nodup) :
    (adMergeFillInvalid dict r).length = 1 := by
  have hle := nodup_filter_key_le_one (fun d => d.itemCode) dict h r.itemCode
  rcases hd : dict.filter (fun d => d.itemCode == r.itemCode) with _ | ⟨m, ms⟩
  · simp [adMergeFillInvalid, hd]
  · rw [hd] at hle
    simp only [List.length_cons] at hle
    have hms : ms = [] := List.length_eq_zero.mp (by omega)
    simp [adMergeFillInvalid, hd, hms]

/-! ## Claim C1 -/

/-- C1.  The claim states that every brand keeps a record value that is
already non-null and uses the joined reference value only for nulls.
The ADOLFO fill violates this: with the record value OLD and the
reference value NEW for the same code, the cleaned output holds NEW
(the source passes the dictionary column as the first argument of
`combine_first`, so the reference overwrites the record, contradicting
the comment above the loop).  The NEW ERA fill (`fillNE`) does keep the
record value, as the claim demands. -/
theorem c1_fill_direction :
    (c1AdolfoRows.map (fun r => r.u_categoria) = [some "OLD"])
    ∧ ((clean_adolfo_data c1AdolfoDict c1AdolfoRows).1.map
        (fun r => r.u_categoria) = [some "NEW"])
    ∧ (fillNE c1NERecordKeep (some c1NERefOther)).uSilueta = some "KEEP" := by
  refine ⟨rfl, ?_, rfl⟩
  rfl

/-! ## Claim C2 -/

/-- C2.  The claim states that the letter+digit validator of ADOLFO,
BIRKEN and PB accepts exactly the candidates of length at least two
whose first character is alphabetic and second numeric.  PB's
`validar_y_extraer_u_estilo` does.  The ADOLFO/BIRKEN condition
`formato_correcto`, because `&` binds tighter than `>=` in Python,
evaluates `len >= (2 & isalpha & isnumeric) = len >= 0` and accepts the
candidate "1ABC" that the claim requires to be rejected. -/
theorem c2_validator_divergence :
    formato_correcto "1ABC" = true
    ∧ (validar_y_extraer_u_estilo (some "1ABC")).2.2.2 = false
    ∧ (validar_y_extraer_u_estilo (some "A1BC")).2.2.2 = true
    ∧ (validar_y_extraer_u_estilo (some "A")).2.2.2 = false
    ∧ (validar_y_extraer_u_estilo (some "")).2.2.2 = false
    ∧ (validar_y_extraer_u_estilo none).2.2.2 = false := by
  refine ⟨by decide, by decide, by decide, by decide, by decide, rfl⟩

/-! ## Claim C3 -/

/-- C3.  Against an empty reference table, the ADOLFO and NEW ERA
cleaning routines return the input record set unmodified (no row added
or removed, no attribute changed) and report the configuration-error
condition (boolean component `true`, the `st.error` report of the
source), instead of enriching with an empty dictionary. -/
theorem c3_empty_reference_guard :
    ∀ (rows : List ARow) (rowsNE : List NERecord),
      clean_adolfo_data [] rows = (rows, true)
      ∧ clean_new_era_data [] rowsNE = (rowsNE, true) := by
  intro rows rowsNE
  exact ⟨rfl, rfl⟩

/-! ## Claim C4 -/

/-- C4, counterexample to the claim as stated.  With a reference table
holding a duplicated ItemCode, the single input record appears TWICE in
the concatenated output of the ADOLFO cleaning: the left join fans it
out, so "every input record appears exactly once in the concatenated
output" fails without a uniqueness assumption on the reference key. -/
theorem c4_fanout_counterexample :
    c4FanRows.length = 1
    ∧ ((clean_adolfo_data c4FanDict c4FanRows).1).length = 2 := by
  exact ⟨rfl, rfl⟩

/-- C4, amended.  The valid/invalid split is a partition of the input:
the sizes add up to the input size and no row is on both sides; and
PROVIDED the reference join key is duplicate-free, every input record
appears exactly once in the concatenated output of the ADOLFO cleaning
(stated as a permutation of the identifying columns). -/
theorem c4_partition (dict : List ADict) (rows : List ARow)
    (h : (dict.map (fun d => d.itemCode)).Nodup) :
    ((adolfo_valid rows).length + (adolfo_invalid rows).length = rows.length)
    ∧ (∀ r, r ∈ (adolfo_rows1 rows).filter cond_valido →
        ¬ r ∈ (adolfo_rows1 rows).filter (fun x => !cond_valido x))
    ∧ ((clean_adolfo_data dict rows).1.map (fun r => (r.itemCode, r.itemName))).Perm
        (rows.map (fun r => (r.itemCode, r.itemName))) := by
  refine ⟨?_, ?_, ?_⟩
  · rw [adolfo_valid, adolfo_invalid, List.length_map, List.length_map,
      filter_not_length_add, adolfo_rows1, List.length_map]
  · intro r hv hi
    have h1 := (List.mem_filter.mp hv).2
    have h2 := (List.mem_filter.mp hi).2
    simp [h1] at h2
  · by_cases hd : dict.isEmpty
    · simp [clean_adolfo_data, hd]
    · rw [clean_adolfo_data, if_neg hd]
      have hmv : ((adolfo_valid rows).flatMap (adMergeFillValid dict)).map
          (fun r => (r.itemCode, r.itemName))
          = (adolfo_valid rows).map (fun r => (r.itemCode, r.itemName)) := by
        apply map_flatMap_singleton
        · intro a _; exact adMergeFillValid_length dict a h
        · intro a _ x hx
          obtain ⟨hc, hn⟩ := adMergeFillValid_fields dict a x hx
          rw [hc, hn]
      have hmi : ((adolfo_invalid rows).flatMap (adMergeFillInvalid dict)).map
          (fun r => (r.itemCode, r.itemName))
          = (adolfo_invalid rows).map (fun r => (r.itemCode, r.itemName)) := by
        apply map_flatMap_singleton
        · intro a _; exact adMergeFillInvalid_length dict a h
        · intro a _ x hx
          obtain ⟨hc, hn⟩ := adMergeFillInvalid_fields dict a x hx
          rw [hc, hn]
      rw [List.map_append, hmv, hmi, adolfo_valid, adolfo_invalid,
        List.map_map, List.map_map]
      have hcomp1 : ((fun r => (r.itemCode, r.itemName)) ∘
          (fun r : ARow => { r with u_descrip_color := segAt r.itemName 3 }))
          = (fun r : ARow => (r.itemCode, r.itemName)) := rfl
      have hcomp2 : ((fun r => (r.itemCode, r.itemName)) ∘
          (fun r : ARow => { r with u_estilo := none }))
          = (fun r : ARow => (r.itemCode, r.itemName)) := rfl
      rw [hcomp1, hcomp2, ← List.map_append]
      have hperm := (List.filter_append_perm cond_valido (adolfo_rows1 rows)).map
        (fun r : ARow => (r.itemCode, r.itemName))
      refine hperm.trans ?_
      rw [adolfo_rows1, List.map_map]
      exact List.Perm.refl _

/-- C4, witness: the amended theorem applied to a concrete
duplicate-free dictionary and a concrete two-row upload. -/
theorem c4_partition_witness :
    ((c4WitDict.map (fun d => d.itemCode)).Nodup)
    ∧ ((clean_adolfo_data c4WitDict c4WitRows).1.map
        (fun r => (r.itemCode, r.itemName))).Perm
        (c4WitRows.map (fun r => (r.itemCode, r.itemName))) :=
  ⟨by decide, (c4_partition c4WitDict c4WitRows (by decide)).2.2⟩

/-! ## Claim C7 -/

/-- C7, counterexample to the claim as stated.  The ADOLFO routine joins
its reference table WITHOUT deduplicating the join key first: with two
reference rows for the code Z9, the single (invalid-side) input record
fans out into two output rows. -/
theorem c7_adolfo_no_dedup_counterexample :
    c7FanRows.length = 1
    ∧ ((clean_adolfo_data c7FanDict c7FanRows).1).length = 2 := by
  exact ⟨rfl, rfl⟩

/-- C7, amended.  Only the NEW ERA routine deduplicates the join key
before its lookup (`drop_duplicates('U_Estilo')`), and consequently its
join never fans an input record out: the cleaned NEW ERA output always
has exactly as many rows as the input, for every reference table,
duplicated keys included. -/
theorem c7_new_era_no_fanout :
    ∀ (refs : List NERef) (rows : List NERecord),
      ((clean_new_era_data refs rows).1).length = rows.length := by
  intro refs rows
  by_cases he : refs.isEmpty
  · simp [clean_new_era_data, he]
  · rw [clean_new_era_data, if_neg he]
    simp only [List.length_map]
    rw [leftMergeNE]
    rw [flatMap_length_one _ _ ?_, List.length_map]
    intro r _
    have hnd := dedupBy_keys_nodup (fun m : NERef => m.uEstilo) refs
    have hle := nodup_filter_key_le_one (fun m : NERef => m.uEstilo)
      (dedupBy (fun m : NERef => m.uEstilo) refs) hnd (pyStr r.uEstilo)
    rcases hf : (dedupBy (fun m : NERef => m.uEstilo) refs).filter
        (fun m => m.uEstilo == pyStr r.uEstilo) with _ | ⟨m, ms⟩
    · simp [neMergeRow, hf]
    · rw [hf] at hle
      simp only [List.length_cons] at hle
      have hms : ms = [] := List.length_eq_zero.mp (by omega)
      simp [neMergeRow, hf, hms]


/-! ## Lemmas about the cascade merge -/

theorem fillAttrs_get (as bs : List (Option String)) (i : Nat) (x : String)
    (h : as.get? i = some (some x)) :
    (fillAttrs as bs).get? i = some (some x) := by
  induction as generalizing bs i with
  | nil => simp at h
  | cons a as ih =>
    cases bs with
    | nil => simpa [fillAttrs] using h
    | cons b bs =>
      cases i with
      | zero =>
        simp only [List.get?] at h
        have ha : a = some x := by exact Option.some.inj h
        simp [fillAttrs, ha, combine_first]
      | succ n =>
        simp only [List.get?] at h
        simpa [fillAttrs] using ih bs n h

theorem mergeRow_ne_nil (tier : List NRow) (r : NRow) :
    mergeRow tier r ≠ [] := by
  rcases hf : tier.filter (fun t => t.key == r.key) with _ | ⟨m, ms⟩
  · simp [mergeRow, hf]
  · simp [mergeRow, hf]

theorem mergeRow_key (tier : List NRow) (r : NRow) :
    ∀ x ∈ mergeRow tier r, x.key = r.key := by
  intro x hx
  rcases hf : tier.filter (fun t => t.key == r.key) with _ | ⟨m, ms⟩
  · simp only [mergeRow, hf, List.mem_singleton] at hx
    exact hx ▸ rfl
  · simp only [mergeRow, hf, List.mem_map] at hx
    obtain ⟨m0, _, hm0⟩ := hx
    exact hm0 ▸ rfl

theorem mergeRow_head_attr (tier : List NRow) (r : NRow) (i : Nat) (x : String)
    (h : r.attrs.get? i = some (some x)) :
    ∃ y, (mergeRow tier r).head? = some y ∧ y.attrs.get? i = some (some x) := by
  rcases hf : tier.filter (fun t => t.key == r.key) with _ | ⟨m, ms⟩
  · exact ⟨r, by simp [mergeRow, hf], h⟩
  · refine ⟨fillRowN r m, by simp [mergeRow, hf], ?_⟩
    exact fillAttrs_get r.attrs m.attrs i x h

theorem find?_flatMap_mergeRow (t1 t2 : List NRow) (k : String) (r1 : NRow)
    (h : t1.filter (fun r => r.key == k) = [r1]) :
    (t1.flatMap (mergeRow t2)).find? (fun r => r.key == k)
      = (mergeRow t2 r1).head? := by
  induction t1 with
  | nil => simp at h
  | cons a as ih =>
    rw [List.filter_cons] at h
    by_cases ha : (a.key == k) = true
    · rw [if_pos ha] at h
      obtain ⟨har, hnil⟩ := List.cons_eq_cons.mp h
      subst har
      rw [List.flatMap_cons, List.find?_append]
      have hall : ∀ y ∈ mergeRow t2 a, (y.key == k) = true := by
        intro y hy
        rw [mergeRow_key t2 a y hy]
        exact ha
      rw [find?_all_pos _ _ hall]
      obtain ⟨y, ys, hcons⟩ := List.exists_cons_of_ne_nil (mergeRow_ne_nil t2 a)
      rw [hcons]
      rfl
    · rw [if_neg ha] at h
      rw [List.flatMap_cons, List.find?_append]
      have hnone : (mergeRow t2 a).find? (fun r => r.key == k) = none := by
        apply List.find?_eq_none.mpr
        intro y hy
        rw [mergeRow_key t2 a y hy]
        simpa using ha
      rw [hnone, Option.none_or]
      exact ih h

theorem find?_flatMap_mergeRow_none (t1 t2 : List NRow) (k : String)
    (h : ∀ r ∈ t1, (r.key == k) = false) :
    (t1.flatMap (mergeRow t2)).find? (fun r => r.key == k) = none := by
  apply List.find?_eq_none.mpr
  intro x hx
  obtain ⟨r, hr, hxr⟩ := List.mem_flatMap.mp hx
  rw [mergeRow_key t2 r x hxr]
  simp [h r hr]

/-! ## Claim C5 -/

/-- C5.  Earlier tiers win in the cascading NEW ERA merge: if tier 1
holds the (unique) row for a key with a non-null attribute X and tier 2
holds the same key with any value, the merged table still holds X at
that position; a key absent from the earlier tier but present in the
later tier enters the merged table with the later tier's own row; and
after the fold, the result has no duplicate keys (the
`drop_duplicates(keep='first')` step). -/
theorem c5_cascade_priority :
    (∀ (t1 t2 : List NRow) (k x : String) (i : Nat) (r1 : NRow),
      t1.filter (fun r => r.key == k) = [r1] →
      r1.attrs.get? i = some (some x) →
      (lookupKeyN (combinar_cascada [t1, t2]) k).bind (fun r => r.attrs.get? i)
        = some (some x))
    ∧ (∀ (t1 t2 : List NRow) (k : String) (r2 : NRow),
      (∀ r ∈ t1, (r.key == k) = false) →
      lookupKeyN t2 k = some r2 →
      lookupKeyN (combinar_cascada [t1, t2]) k = some r2)
    ∧ (∀ tiers : List (List NRow),
      ((combinar_cascada tiers).map (fun r => r.key)).Nodup) := by
  refine ⟨?_, ?_, ?_⟩
  · intro t1 t2 k x i r1 h1 hx
    have hred : combinar_cascada [t1, t2]
        = dedupBy (fun r => r.key) (mergeStep t1 t2) := rfl
    rw [hred, lookupKeyN, find?_dedupBy, mergeStep, List.find?_append,
      find?_flatMap_mergeRow t1 t2 k r1 h1]
    obtain ⟨y, hy, hyattr⟩ := mergeRow_head_attr t2 r1 i x hx
    rw [hy]
    simpa using hyattr
  · intro t1 t2 k r2 h1 h2
    have hred : combinar_cascada [t1, t2]
        = dedupBy (fun r => r.key) (mergeStep t1 t2) := rfl
    rw [hred, lookupKeyN, find?_dedupBy, mergeStep, List.find?_append,
      find?_flatMap_mergeRow_none t1 t2 k h1, Option.none_or,
      find?_filter_imp]
    · exact h2
    · intro t ht
      have htk : t.key = k := by simpa using ht
      have hany : t1.any (fun r => r.key == t.key) = false := by
        rw [List.any_eq_false]
        intro r hr
        rw [htk]
        simp [h1 r hr]
      simp [hany]
  · intro tiers
    cases tiers with
    | nil => simp [combinar_cascada]
    | cons t ts => exact dedupBy_keys_nodup _ _

/-- C5, witness: the theorem instantiated at the concrete two-tier
scenario of the specification (tier 1 = K1:X, tier 2 = K1:Y and K2:Z). -/
theorem c5_cascade_priority_witness :
    ((lookupKeyN (combinar_cascada [c5Tier1, c5Tier2]) "K1").bind
        (fun r => r.attrs.get? 0) = some (some "X"))
    ∧ lookupKeyN (combinar_cascada [[], c5Tier2]) "K2" = some ⟨"K2", [some "Z"]⟩ :=
  ⟨c5_cascade_priority.1 c5Tier1 c5Tier2 "K1" "X" 0 ⟨"K1", [some "X"]⟩
      (by decide) rfl,
   c5_cascade_priority.2.1 [] c5Tier2 "K2" ⟨"K2", [some "Z"]⟩
      (by intro r hr; simp at hr) (by decide)⟩


/-! ## Claim C6 -/

/-- C6.  The secondary classification resolver touches only records
whose league is null or empty: a populated league is returned
unchanged; a blank league is filled from the primary `team_licenses`
map first, from `team_licenses_extended` only when the primary misses,
and left as it is when the team is in neither map; no other field is
ever modified; and a record with team "LOS ANGELES DODGERS" and blank
league receives league "MLB". -/
theorem c6_league_resolver :
    (∀ r : NERecord, blankLiga r.uLiga = false → resolveLeague r = r)
    ∧ (∀ (r : NERecord) (v : String), blankLiga r.uLiga = true →
        pyDictLookup team_licenses (r.uTeam.getD "") = some v →
        (resolveLeague r).uLiga = some v)
    ∧ (∀ (r : NERecord) (v : String), blankLiga r.uLiga = true →
        pyDictLookup team_licenses (r.uTeam.getD "") = none →
        pyDictLookup team_licenses_extended (r.uTeam.getD "") = some v →
        (resolveLeague r).uLiga = some v)
    ∧ (∀ r : NERecord, blankLiga r.uLiga = true →
        pyDictLookup team_licenses (r.uTeam.getD "") = none →
        pyDictLookup team_licenses_extended (r.uTeam.getD "") = none →
        resolveLeague r = r)
    ∧ (∀ r : NERecord, ({ resolveLeague r with uLiga := r.uLiga } : NERecord) = r)
    ∧ (∀ r : NERecord, r.uTeam = some "LOS ANGELES DODGERS" →
        blankLiga r.uLiga = true → (resolveLeague r).uLiga = some "MLB") := by
  refine ⟨?_, ?_, ?_, ?_, ?_, ?_⟩
  · intro r h
    simp [resolveLeague, h]
  · intro r v hb hl
    simp [resolveLeague, hb, hl]
  · intro r v hb hl1 hl2
    simp [resolveLeague, hb, hl1, hl2]
  · intro r hb hl1 hl2
    simp [resolveLeague, hb, hl1, hl2]
  · intro r
    by_cases hb : blankLiga r.uLiga
    · simp only [resolveLeague, hb, if_true]
      rcases h1 : pyDictLookup team_licenses (r.uTeam.getD "") with _ | v
      · rcases h2 : pyDictLookup team_licenses_extended (r.uTeam.getD "") with _ | w
        · rfl
        · rfl
      · rfl
    · simp only [resolveLeague, hb]
      rfl
  · intro r hteam hb
    have hlook : pyDictLookup team_licenses "LOS ANGELES DODGERS" = some "MLB" := by
      decide
    simp [resolveLeague, hb, hteam, hlook]

/-- C6, witness: a record with a populated league is untouched, and the
Dodgers record with a blank league receives MLB. -/
theorem c6_league_resolver_witness :
    resolveLeague c6PopulatedRec = c6PopulatedRec
    ∧ (resolveLeague c6DodgersRec).uLiga = some "MLB" :=
  ⟨c6_league_resolver.1 c6PopulatedRec rfl,
   c6_league_resolver.2.2.2.2.2 c6DodgersRec rfl rfl⟩


/-! ## Lemmas about the splitter -/

theorem splitChar_no_slash (l : List Char) (h : ('/' : Char) ∉ l) :
    splitChar l = [l] := by
  induction l with
  | nil => rfl
  | cons c cs ih =>
    have hc : c ≠ '/' := fun hc => h (hc ▸ List.mem_cons_self c cs)
    have hcs : ('/' : Char) ∉ cs := fun hm => h (List.mem_cons_of_mem c hm)
    rw [splitChar, ih hcs]
    simp [hc]

theorem mem_collapseWsAux (l : List Char) (b : Bool) (c : Char)
    (h : c ∈ collapseWsAux b l) : c = ' ' ∨ c ∈ l := by
  induction l generalizing b with
  | nil => simp [collapseWsAux] at h
  | cons c0 cs ih =>
    by_cases hws : c0.isWhitespace
    · rw [collapseWsAux, if_pos hws] at h
      cases b with
      | true =>
        rcases ih true h with h | h
        · exact Or.inl h
        · exact Or.inr (List.mem_cons_of_mem c0 h)
      | false =>
        rcases List.mem_cons.mp h with h | h
        · exact Or.inl h
        · rcases ih true h with h | h
          · exact Or.inl h
          · exact Or.inr (List.mem_cons_of_mem c0 h)
    · rw [collapseWsAux, if_neg hws] at h
      rcases List.mem_cons.mp h with h | h
      · exact Or.inr (h ▸ List.mem_cons_self c0 cs)
      · rcases ih false h with h | h
        · exact Or.inl h
        · exact Or.inr (List.mem_cons_of_mem c0 h)

theorem mem_stripChars (l : List Char) (c : Char)
    (h : c ∈ stripChars l) : c ∈ l := by
  rw [stripChars] at h
  have h1 := List.mem_reverse.mp h
  have h2 := ((List.dropWhile_suffix Char.isWhitespace).sublist).mem h1
  have h3 := List.mem_reverse.mp h2
  exact ((List.dropWhile_suffix Char.isWhitespace).sublist).mem h3

theorem pySplit_no_slash (s : String) (h : ('/' : Char) ∉ s.data) :
    pySplit s = [s] := by
  rw [pySplit, splitChar_no_slash s.data h]
  rfl

/-! ## Claim C8 -/

/-- C8.  The identifier parser splits the item name on the slash and
takes positional segments: on "A123/DESC TEXT/42/RED" the style is
"A123", the (whitespace-normalised) description is "DESC TEXT", the
size segment is "42" and the colour segment is "RED"; and for any
string with no slash, the style candidate is the whole string and
every later segment is absent. -/
theorem c8_segment_extraction :
    (pySplitFirst "A123/DESC TEXT/42/RED" = "A123"
      ∧ neDescripcion "A123/DESC TEXT/42/RED" = some "DESC TEXT"
      ∧ segAt "A123/DESC TEXT/42/RED" 2 = some "42"
      ∧ segAt "A123/DESC TEXT/42/RED" 3 = some "RED")
    ∧ (∀ s : String, ('/' : Char) ∉ s.data →
        pySplitFirst s = s ∧ segAt s 1 = none ∧ segAt s 2 = none
        ∧ segAt s 3 = none ∧ neDescripcion s = none) := by
  constructor
  · exact ⟨by decide, by decide, by decide, by decide⟩
  · intro s h
    have hsp : pySplit s = [s] := pySplit_no_slash s h
    have hns : ('/' : Char) ∉ (pyStrip (collapseWs s)).data := by
      intro hc
      have h2 := mem_stripChars _ _ hc
      rcases mem_collapseWsAux _ _ _ h2 with h3 | h3
      · simp at h3
      · exact h h3
    refine ⟨?_, ?_, ?_, ?_, ?_⟩
    · rw [pySplitFirst, hsp]; rfl
    · rw [segAt, hsp]; rfl
    · rw [segAt, hsp]; rfl
    · rw [segAt, hsp]; rfl
    · rw [neDescripcion, segAt, pySplit_no_slash _ hns]; rfl

/-- C8, witness: the no-delimiter branch instantiated at "NODELIM". -/
theorem c8_segment_extraction_witness :
    pySplitFirst "NODELIM" = "NODELIM" ∧ segAt "NODELIM" 1 = none
    ∧ segAt "NODELIM" 2 = none ∧ segAt "NODELIM" 3 = none
    ∧ neDescripcion "NODELIM" = none :=
  c8_segment_extraction.2 "NODELIM" (by decide)


/-! ## Lemmas about the plantilla export -/

theorem plantStep_foldl (r : PRec) (cs : List String) (acc : List PlantRow) :
    cs.foldl (plantStep r) acc
      = acc ++ (cs.filter (plantPasses r)).map (plantEmit r) := by
  induction cs generalizing acc with
  | nil => simp
  | cons c cs ih =>
    rw [List.foldl_cons, ih, List.filter_cons]
    cases hg : attrGet r c with
    | none =>
      have hp : plantPasses r c = false := by simp [plantPasses, hg]
      have hs : plantStep r acc c = acc := by simp [plantStep, hg]
      rw [hp, hs]
      simp
    | some o =>
      cases o with
      | none =>
        have hp : plantPasses r c = false := by simp [plantPasses, hg]
        have hs : plantStep r acc c = acc := by simp [plantStep, hg]
        rw [hp, hs]
        simp
      | some v =>
        by_cases hv : (!(pyStrip v == "") && !(pyStrip v == "nan")) = true
        · have hp : plantPasses r c = true := by simp only [plantPasses, hg]; exact hv
          have hs : plantStep r acc c = acc ++ [mkPlantRow r c v] := by
            simp only [plantStep, hg]
            rw [if_pos hv]
          have he : plantEmit r c = mkPlantRow r c v := by
            simp [plantEmit, plantVal, mkPlantRow, hg]
          rw [hp, hs]
          simp [he, List.append_assoc]
        · have hp : plantPasses r c = false := by
            simp only [plantPasses, hg]
            exact Bool.of_not_eq_true hv
          have hs : plantStep r acc c = acc := by
            simp only [plantStep, hg]
            rw [if_neg hv]
          rw [hp, hs]
          simp

theorem convert_characterization (rows : List PRec) (cols : List String) :
    convert_to_plantilla_format rows cols
      = rows.flatMap (fun r => (cols.filter (plantPasses r)).map (plantEmit r)) := by
  rw [convert_to_plantilla_format]
  suffices h : ∀ acc, rows.foldl (fun acc r => cols.foldl (plantStep r) acc) acc
      = acc ++ rows.flatMap
          (fun r => (cols.filter (plantPasses r)).map (plantEmit r)) by
    simpa using h []
  induction rows with
  | nil => intro acc; simp
  | cons r rs ih =>
    intro acc
    rw [List.foldl_cons, plantStep_foldl, ih, List.flatMap_cons, List.append_assoc]

/-! ## Claim C9 -/

/-- C9, counterexample to the claim as stated.  A record cell holding
the literal text "nan" is non-null and non-blank, yet the export emits
no row for it: the guard also compares against the string "nan". -/
theorem c9_nan_value_counterexample :
    attrGet c9NanRow "u_categoria" = some (some "nan")
    ∧ pyStrip "nan" ≠ ""
    ∧ convert_to_plantilla_format [c9NanRow] ["u_categoria"] = [] := by
  exact ⟨rfl, by decide, rfl⟩

/-- C9, amended.  For each input record the export emits exactly one row
per processed attribute whose cell passes the guard (non-null, and after
stripping neither empty nor the literal "nan"), and nothing else; every
emitted row is the five-field row (country null, company tag, attribute
name, record code, stripped value) of some passing pair; and every
passing pair has its row in the output.  The export is a pure function
of the cleaned records; it never re-invokes a cleaning routine. -/
theorem c9_attribute_rows :
    ∀ (rows : List PRec) (cols : List String),
      ((convert_to_plantilla_format rows cols).length
        = (rows.map (fun r => (cols.filter (plantPasses r)).length)).sum)
      ∧ (∀ p ∈ convert_to_plantilla_format rows cols,
          p.pais = none ∧ ∃ r ∈ rows, ∃ c ∈ cols, plantPasses r c = true
            ∧ p = plantEmit r c)
      ∧ (∀ r ∈ rows, ∀ c ∈ cols, plantPasses r c = true →
          plantEmit r c ∈ convert_to_plantilla_format rows cols) := by
  intro rows cols
  simp only [convert_characterization]
  refine ⟨?_, ?_, ?_⟩
  · rw [List.length_flatMap]
    congr 1
    simp [List.length_map]
  · intro p hp
    obtain ⟨r, hr, hp2⟩ := List.mem_flatMap.mp hp
    obtain ⟨c, hc, hpe⟩ := List.mem_map.mp hp2
    have hcf := List.mem_filter.mp hc
    exact ⟨by rw [← hpe]; rfl, r, hr, c, hcf.1, hcf.2, hpe.symm⟩
  · intro r hr c hc hpass
    exact List.mem_flatMap.mpr
      ⟨r, hr, List.mem_map_of_mem _ (List.mem_filter.mpr ⟨hc, hpass⟩)⟩

/-- C9, witness: the amended theorem instantiated at a one-record,
one-column export with a genuinely filled cell. -/
theorem c9_attribute_rows_witness :
    plantPasses c9WitRow "u_genero" = true
    ∧ plantEmit c9WitRow "u_genero"
        ∈ convert_to_plantilla_format [c9WitRow] ["u_genero"] :=
  ⟨by decide,
   (c9_attribute_rows [c9WitRow] ["u_genero"]).2.2 c9WitRow
     (List.mem_singleton.mpr rfl) "u_genero" (List.mem_singleton.mpr rfl)
     (by decide)⟩

/-! ## Claim C10 -/

theorem ch_genero_eq_head (s : String) :
    ch_genero s = (match s.data.head? with
      | some c => if c = 'F' then "MACC" else if c = 'W' then "WFW"
          else if c = 'C' then "MFW" else if c = 'U' then "WACC" else ""
      | none => "") := by
  rcases s with ⟨l⟩
  cases l with
  | nil => rfl
  | cons c cs =>
    simp only [List.head?]
    simp [ch_genero, pyStartsWith1]

/-- C10.  In the CH routine the derived gender is a pure function of the
first character of the style code, given by the table F/W/C/U to
MACC/WFW/MFW/WACC and empty otherwise; the category always equals the
gender; and the segment is FOOTWEAR exactly for WFW/MFW, ACCESSORIES
exactly for MACC/WACC, and empty exactly when the gender is empty. -/
theorem c10_ch_derivations :
    ∀ s t : String,
      (s.data.head? = t.data.head? → ch_genero s = ch_genero t)
      ∧ (ch_genero s = (match s.data.head? with
          | some c => if c = 'F' then "MACC" else if c = 'W' then "WFW"
              else if c = 'C' then "MFW" else if c = 'U' then "WACC" else ""
          | none => ""))
      ∧ ch_categoria s = ch_genero s
      ∧ (ch_segmento (ch_genero s) = "FOOTWEAR"
          ↔ (ch_genero s = "WFW" ∨ ch_genero s = "MFW"))
      ∧ (ch_segmento (ch_genero s) = "ACCESSORIES"
          ↔ (ch_genero s = "MACC" ∨ ch_genero s = "WACC"))
      ∧ (ch_segmento (ch_genero s) = "" ↔ ch_genero s = "") := by
  have hcases : ∀ u : String, ch_genero u = "MACC" ∨ ch_genero u = "WFW"
      ∨ ch_genero u = "MFW" ∨ ch_genero u = "WACC" ∨ ch_genero u = "" := by
    intro u
    rw [ch_genero]
    split_ifs <;> simp
  intro s t
  refine ⟨?_, ch_genero_eq_head s, rfl, ?_, ?_, ?_⟩
  · intro h
    rw [ch_genero_eq_head s, ch_genero_eq_head t, h]
  · rcases hcases s with h | h | h | h | h <;> rw [h] <;> decide
  · rcases hcases s with h | h | h | h | h <;> rw [h] <;> decide
  · rcases hcases s with h | h | h | h | h <;> rw [h] <;> decide

/-- C10, witness: two style codes sharing the first character receive
the same gender. -/
theorem c10_ch_derivations_witness :
    ch_genero "FOO" = ch_genero "FAR" :=
  (c10_ch_derivations "FOO" "FAR").1 rfl

end Bots
